import Mathlib

/-!
# Verification of the civitdl resource-selection and transfer engine

A shallow embedding of the decision logic of `src/lib.rs` (crate `civitdl`):
the wire data model (`src/model/model_version.rs`, `src/model/model.rs`),
the three-tier file selector `get_optimal_file_from_preferred_model_format`,
the category/path resolver `get_download_folder_from_model_type` /
`get_download_folder_from_model_version`, the size-based existence check
`check_if_file_exists_and_matches_hash`, the override-mode version search
`download_specific_resource_for_model`, and the pieces of `download_file`
that carry decision logic (selector-precondition unwraps, the
content-disposition filename derivation, the existence gate, and the
progress counter of the chunk loop).

Conventions of the embedding:
* Rust `i64` ids are `Int`; `f64` sizes are modelled as exact rationals
  (`sizeKb` and `len as f64 / 1024.0` are compared for equality; division
  by the power of two 1024 is exact in both models for all realistic sizes).
* `Option<T>` is `Option`; a Rust function that can panic (via
  `unwrap`/`expect`) is modelled with an explicit `Outcome` type whose
  `panik` constructor records the panic: a `panik` result is an abnormal
  termination, distinct from a returned error (`err`).
* Paths (`PathBuf`) are lists of components; `normpath`'s `normalize` is
  modelled as a pure lexical normalization (the external crate is an
  external collaborator; only its purity/determinism matters here).
* The network is an external collaborator: fetched payloads are passed in
  as values (the fetch result is an `Except` parameter).
* Presentation-only fields (`images` and the nested image metadata) are
  omitted from `ModelVersion`; no verified operation reads them.
-/

/-- Outcome of a Rust function returning `anyhow::Result`, with panics made
explicit: `ok` is `Ok`, `err` is `Err`, `panik` is an `unwrap`/`expect`
panic (abnormal termination, not a returned value). -/
inductive Outcome (α : Type) where
  | ok : α → Outcome α
  | err : String → Outcome α
  | panik : String → Outcome α
deriving DecidableEq

/-- Hash digests attached to a `ResourceFile` (model/model_version.rs, `Hashes`). -/
structure Hashes where
  auto_v1 : Option String
  auto_v2 : Option String
  sha256 : Option String
  crc32 : Option String
  blake3 : Option String
deriving DecidableEq

/-- One downloadable artifact variant (model/model_version.rs, `ResourceFile`).
`size_kb` (wire `sizeKB`, Rust `Option<f64>`) is an exact rational here. -/
structure ResourceFile where
  name : String
  id : Int
  size_kb : Option ℚ
  type_field : String
  format : Option String
  pickle_scan_result : Option String
  pickle_scan_message : Option String
  virus_scan_result : Option String
  scanned_at : Option String
  hashes : Option Hashes
  download_url : String
deriving DecidableEq

/-- The minimal model summary embedded in a version payload
(model/model_version.rs, `Model`). -/
structure ModelSummary where
  name : String
  type_field : String
  nsfw : Option Bool
  poi : Option Bool
deriving DecidableEq

/-- A model version (model/model_version.rs, `ModelVersion`); the
presentation-only `images` field is omitted. -/
structure ModelVersion where
  id : Int
  model_id : Int
  name : String
  created_at : Option String
  updated_at : Option String
  trained_words : List String
  base_model : Option String
  early_access_time_frame : Option Int
  description : Option String
  files : Option (List ResourceFile)
  model : Option ModelSummary
  download_url : String
deriving DecidableEq

/-- A model creator (model/model.rs, `Creator`). -/
structure Creator where
  username : Option String
  image : Option String
deriving DecidableEq

/-- A full model record (model/model.rs, `Model`); the `tags` field of
untyped JSON values is omitted. -/
structure Model where
  id : Int
  name : String
  description : Option String
  type_field : String
  poi : Option Bool
  nsfw : Option Bool
  allow_no_credit : Option Bool
  allow_commercial_use : Option String
  allow_derivatives : Option Bool
  allow_different_license : Option Bool
  creator : Option Creator
  model_versions : List ModelVersion
deriving DecidableEq

/-- File role (lib.rs, `ResourceType`); strum `EnumString` with serialize
renames for `PrunedModel` and `TrainingData`. -/
inductive ResourceType where
  | Model
  | PrunedModel
  | TrainingData
  | Archive
  | Config
  | Unknown
deriving DecidableEq

/-- Serialization format of a file (lib.rs, `ModelFormat`). -/
inductive ModelFormat where
  | SafeTensor
  | PickleTensor
  | Other
  | Unknown
deriving DecidableEq

/-- Structural class of a model (lib.rs, `ModelType`); strum `EnumString`
with a serialize rename for `Lora`. -/
inductive ModelType where
  | Lora
  | Model
  | Checkpoint
  | TextualInversion
  | Hypernetwork
  | AestheticGradient
  | Poses
  | Unknown
  | LoCon
  | Wildcards
deriving DecidableEq

/-- `ResourceType::from_str` (strum-derived `FromStr`): a serialize rename
replaces the variant name; unrecognized strings are `none` (`Err`). -/
def ResourceType.from_str : String → Option ResourceType
  | "Model" => some .Model
  | "Pruned Model" => some .PrunedModel
  | "Training Data" => some .TrainingData
  | "Archive" => some .Archive
  | "Config" => some .Config
  | "Unknown" => some .Unknown
  | _ => none

/-- `ModelFormat::from_str` (strum-derived `FromStr`). -/
def ModelFormat.from_str : String → Option ModelFormat
  | "SafeTensor" => some .SafeTensor
  | "PickleTensor" => some .PickleTensor
  | "Other" => some .Other
  | "Unknown" => some .Unknown
  | _ => none

/-- `ModelType::from_str` (strum-derived `FromStr`): `Lora` is spelled
`LORA` on the wire; unrecognized strings are `none` (`Err`). -/
def ModelType.from_str : String → Option ModelType
  | "LORA" => some .Lora
  | "Model" => some .Model
  | "Checkpoint" => some .Checkpoint
  | "TextualInversion" => some .TextualInversion
  | "Hypernetwork" => some .Hypernetwork
  | "AestheticGradient" => some .AestheticGradient
  | "Poses" => some .Poses
  | "Unknown" => some .Unknown
  | "LoCon" => some .LoCon
  | "Wildcards" => some .Wildcards
  | _ => none

/-- `ModelFormat::from_str(..).unwrap_or(ModelFormat::Unknown)` — the
selector's normalization of a raw format string (lib.rs:199-201). -/
def normalize_format (f : String) : ModelFormat :=
  (ModelFormat.from_str f).getD .Unknown

/-- `ResourceType::from_str(..).unwrap_or(ResourceType::Unknown)` — the
selector's normalization of a raw type string (lib.rs:202-203). -/
def normalize_type (t : String) : ResourceType :=
  (ResourceType.from_str t).getD .Unknown

/-- The Primary-tier predicate of the selector (lib.rs:197-225): normalized
format equals the preferred format AND normalized type equals the preferred
type. The `getD ""` models `v.format.clone().unwrap()`, which the caller
only evaluates on files whose `format` is present. -/
def primary_pred (pf : ModelFormat) (pt : ResourceType) (v : ResourceFile) : Bool :=
  pf == normalize_format (v.format.getD "") && pt == normalize_type v.type_field

/-- The Alt-tier predicate of the selector (lib.rs:229-252): format OR type
matches the preference. -/
def alt_pred (pf : ModelFormat) (pt : ResourceType) (v : ResourceFile) : Bool :=
  pf == normalize_format (v.format.getD "") || pt == normalize_type v.type_field

/-- `Civit::get_optimal_file_from_preferred_model_format` (lib.rs:177-271),
with the configured preference passed in (the code unwraps it from
`self.config`). `primary` and `alt` each filter to files with an explicit
format and then search in sequence order; when both tiers miss, the code
unwraps `vs.first()`, which panics on an empty sequence; when `files` is
absent the `else` arm immediately panics via `.expect("yo wtf")`. -/
def get_optimal_file_from_preferred_model_format (pf : ModelFormat)
    (pt : ResourceType) (mv : ModelVersion) : Outcome (Option ResourceFile) :=
  match mv.files with
  | some vs =>
    let primary := (vs.filter (fun v => v.format.isSome)).find? (primary_pred pf pt)
    let alt := (vs.filter (fun v => v.format.isSome)).find? (alt_pred pf pt)
    match primary with
    | some p => .ok (some p)
    | none =>
      match alt with
      | some a => .ok (some a)
      | none =>
        match vs.head? with
        | some f => .ok (some f)
        | none => .panik "called Option.unwrap on a None value"
  | none => .panik "yo wtf"

/-- Modelled from the spec's words (section 4.1): the three ordered tiers,
first match wins, files without an explicit wire format excluded from the
Primary and Alt tiers but eligible as the Fallback. Compared against the
code's `get_optimal_file_from_preferred_model_format` in the refinement
theorem for the tier structure. -/
def selectSpec (pf : ModelFormat) (pt : ResourceType)
    (vs : List ResourceFile) : Option ResourceFile :=
  match vs.find? (fun v => v.format.isSome && primary_pred pf pt v) with
  | some p => some p
  | none =>
    match vs.find? (fun v => v.format.isSome && alt_pred pf pt v) with
    | some a => some a
    | none => vs.head?

/-- Sample file builder for concrete test inputs. -/
def sampleFile (id : Int) (ty : String) (fmt : Option String) (sz : Option ℚ) :
    ResourceFile :=
  { name := "file" ++ toString id, id := id, size_kb := sz, type_field := ty,
    format := fmt, pickle_scan_result := none, pickle_scan_message := none,
    virus_scan_result := none, scanned_at := none, hashes := none,
    download_url := "https://example.invalid/" ++ toString id }

/-- A concrete file sequence whose second file is the Primary match for the
default SafeTensor / PrunedModel preference. -/
def twoFiles : List ResourceFile :=
  [sampleFile 1 "Training Data" (some "PickleTensor") (some 10),
   sampleFile 2 "Pruned Model" (some "SafeTensor") (some 20)]

/-- Sample version builder for concrete test inputs. -/
def mkVersion (files : Option (List ResourceFile)) : ModelVersion :=
  { id := 100, model_id := 7, name := "v", created_at := none,
    updated_at := none, trained_words := [], base_model := none,
    early_access_time_frame := none, description := none, files := files,
    model := none, download_url := "u" }

/-- A concrete version with two candidate files. -/
def mvTwoFiles : ModelVersion := mkVersion (some twoFiles)

/-- A concrete version whose `files` field is absent. -/
def mvNoFiles : ModelVersion := mkVersion none

/-- A concrete version whose `files` sequence is present but empty. -/
def mvEmptyFiles : ModelVersion := mkVersion (some [])

/-- Pure lexical normalization of a component path, modelling
`normpath::PathExt::normalize` (an external collaborator): `.` components
are dropped and `..` pops the previous component. -/
def normalizePath (comps : List String) : List String :=
  comps.foldl
    (fun acc c =>
      if c = "." then acc
      else if c = ".." then acc.dropLast
      else acc ++ [c])
    []

/-- `PathBuf::join` with a possibly multi-component leaf string. -/
def joinPath (base : List String) (leaf : String) : List String :=
  base ++ leaf.splitOn "/"

/-- `Civit::get_download_folder_from_model_type` (lib.rs:311-331): the
category-to-leaf match, then `path.join(leaf_dir).normalize()`. -/
def get_download_folder_from_model_type (path : List String)
    (model_type : ModelType) : List String :=
  let leaf_dir :=
    match model_type with
    | .Model | .Checkpoint => "models/Stable-diffusion"
    | .Lora | .LoCon => "models/Lora"
    | .TextualInversion => "embeddings"
    | .Hypernetwork => "models/hypernetworks"
    | .AestheticGradient => "models/aesthetic_embeddings"
    | .Poses => "models/poses"
    | .Unknown => "downloads"
    | .Wildcards => "downloads/wildcards"
  normalizePath (joinPath path leaf_dir)

/-- Modelled from the spec's words: the category-to-leaf table of section
4.2, one row per category, to be compared against the code's match. -/
def specLeafTable : ModelType → String
  | .Model => "models/Stable-diffusion"
  | .Checkpoint => "models/Stable-diffusion"
  | .Lora => "models/Lora"
  | .LoCon => "models/Lora"
  | .TextualInversion => "embeddings"
  | .Hypernetwork => "models/hypernetworks"
  | .AestheticGradient => "models/aesthetic_embeddings"
  | .Poses => "models/poses"
  | .Wildcards => "downloads/wildcards"
  | .Unknown => "downloads"

/-- `Civit::get_download_folder_from_model_version` (lib.rs:274-308), with
the catalog fetch result passed in as a value. On a successful fetch the
code unwraps `v.model`, then parses the category with
`ModelType::from_str(..).map_err(..).unwrap()` — the `map_err` only logs,
so an unrecognized category string reaches `unwrap` as an `Err` and panics. -/
def get_download_folder_from_model_version (path : List String)
    (fetched : Except String ModelVersion) : Outcome (List String) :=
  match fetched with
  | .error _ => .err "Failed to resolve model version"
  | .ok v =>
    match v.model with
    | none => .panik "called Option.unwrap on a None value"
    | some m =>
      match ModelType.from_str m.type_field with
      | some t => .ok (get_download_folder_from_model_type path t)
      | none => .panik "called Result.unwrap on an Err value"

/-- A concrete version payload carrying a model summary with the given
free-text category. -/
def mkVersionWithModelType (ty : String) : ModelVersion :=
  { mkVersion none with
    model := some { name := "m", type_field := ty, nsfw := none, poi := none } }

/-- The local filesystem as seen by the existence check: a map from a
component path to the size in bytes of the file there, if any. -/
def FS : Type := List String → Option Nat

/-- `Civit::check_if_file_exists_and_matches_hash` (lib.rs:396-413): absent
file short-circuits to `Ok(false)`; otherwise `file.size_kb.unwrap()` is
compared for equality against `metadata().len() as f64 / 1024.0`. -/
def check_if_file_exists_and_matches_hash (fs : FS) (path : List String)
    (file : ResourceFile) : Outcome Bool :=
  match fs path with
  | none => .ok false
  | some len =>
    match file.size_kb with
    | none => .panik "called Option.unwrap on a None value"
    | some size1 => .ok (decide (size1 = (len : ℚ) / 1024))

/-- The existence gate of `Civit::download_file` (lib.rs:501-549): when the
check reports a same-sized file the function returns the
"already exists" error before any file creation; otherwise it creates the
file at the final path and streams the body into it (modelled as the
filesystem update). -/
def download_file_existence_gate (fs : FS) (final_path : List String)
    (target_file : ResourceFile) (body : Nat) : Outcome Unit × FS :=
  match check_if_file_exists_and_matches_hash fs final_path target_file with
  | .panik m => (.panik m, fs)
  | .err m => (.err m, fs)
  | .ok true => (.err "already exists! Not downloading...", fs)
  | .ok false => (.ok (), fun p => if p = final_path then some body else fs p)

/-- A concrete filesystem holding one 2048-byte file. -/
def fsSample : FS :=
  fun p => if p = ["models", "x.safetensors"] then some 2048 else none

/-- A concrete file expecting 2 KB (matches the 2048-byte file). -/
def fileWithSize : ResourceFile :=
  sampleFile 3 "Pruned Model" (some "SafeTensor") (some 2)

/-- A concrete file expecting 3 KB (differs from the 2048-byte file). -/
def fileWithOtherSize : ResourceFile :=
  sampleFile 4 "Pruned Model" (some "SafeTensor") (some 3)

/-- A concrete file whose expected size is absent from the wire data. -/
def fileNoSize : ResourceFile :=
  sampleFile 5 "Pruned Model" (some "SafeTensor") none

/-- `Civit::download_specific_resource_for_model` (lib.rs:416-434): linear
search over the model's versions comparing `version.id.to_string()` with
the override id; the `ok_or(Err(..)) / match` construction returns the
error when nothing matches and otherwise hands exactly the found version to
`download_file`. The result carries the list of versions transferred. -/
def download_specific_resource_for_model (model : Model) (oid : String) :
    Except String (List ModelVersion) :=
  match model.model_versions.find? (fun version => toString version.id == oid) with
  | some t => .ok [t]
  | none =>
    .error ("Failed to find model version " ++ oid ++ " for model "
      ++ toString model.id)

/-- The override branch of `main` (main.rs): the trailing `.unwrap()` on
`download_specific_resource_for_model` turns its error into a panic, fatal
for the whole run. -/
def overrideRun (model : Model) (oid : String) : Outcome (List ModelVersion) :=
  match download_specific_resource_for_model model oid with
  | .ok l => .ok l
  | .error m => .panik m

/-- Sample model builder for concrete test inputs. -/
def mkModel (versions : List ModelVersion) : Model :=
  { id := 42, name := "model", description := none,
    type_field := "Checkpoint", poi := none, nsfw := none,
    allow_no_credit := none, allow_commercial_use := none,
    allow_derivatives := none, allow_different_license := none,
    creator := none, model_versions := versions }

/-- A concrete version with id 3. -/
def vThree : ModelVersion := { mkVersion (some twoFiles) with id := 3 }

/-- A concrete version with id 5. -/
def vFive : ModelVersion := { mkVersion (some twoFiles) with id := 5 }

/-- A concrete model holding the versions with ids 3 and 5. -/
def modelTwoVersions : Model := mkModel [vThree, vFive]

/-- `2^64`: the modulus of the `u64` arithmetic in the chunk loop. -/
def U64_MOD : Nat := 18446744073709551616

/-- The progress counter of the chunk loop of `download_file`
(lib.rs:539-549): one reported position per received chunk, advancing
`downloaded` to `min(downloaded + (chunk.len() as u64), total_size)`.
`downloaded`, `chunk.len() as u64` and `total_size` are `u64`, so the
addition is taken modulo `2^64` (release-build wrapping semantics; a debug
build would instead abort at the same overflowing update). -/
def progress_positions (total downloaded : Nat) : List Nat → List Nat
  | [] => []
  | c :: cs =>
    min ((downloaded + c) % U64_MOD) total
      :: progress_positions total (min ((downloaded + c) % U64_MOD) total) cs

/-- The selection prefix of `Civit::download_file` (lib.rs:437-460): before
invoking the selector the code precomputes the alternate result
`alt = model_version.files.unwrap().first().unwrap()`, then takes
`get_optimal_file_from_preferred_model_format(..)?.unwrap_or(alt)`. -/
def download_file_select (pf : ModelFormat) (pt : ResourceType)
    (mv : ModelVersion) : Outcome ResourceFile :=
  match mv.files with
  | none => .panik "called Option.unwrap on a None value"
  | some [] => .panik "called Option.unwrap on a None value"
  | some (a :: _) =>
    match get_optimal_file_from_preferred_model_format pf pt mv with
    | .panik m => .panik m
    | .err m => .err m
    | .ok r => .ok (r.getD a)

/-- Rust `str::split(pat)` over character lists, for the non-empty pattern
`p :: ps`: pieces between leftmost non-overlapping occurrences; a string
without an occurrence yields the single piece `[s]`. -/
def splitOnSub (p : Char) (ps : List Char) (s : List Char) : List (List Char) :=
  match s with
  | [] => [[]]
  | c :: rest =>
    if (p :: ps).isPrefixOf (c :: rest) then
      [] :: splitOnSub p ps (rest.drop ps.length)
    else
      match splitOnSub p ps rest with
      | [] => [[c]]
      | t :: ts => (c :: t) :: ts
termination_by s.length
decreasing_by
  all_goals simp only [List.length_drop, List.length_cons]
  all_goals omega

/-- Rust `str::contains` of the non-empty pattern `p :: ps`, mirroring the
scan of the split: true iff the pattern occurs as a contiguous substring. -/
def containsSub (p : Char) (ps : List Char) : List Char → Bool
  | [] => false
  | c :: rest => (p :: ps).isPrefixOf (c :: rest) || containsSub p ps rest

/-- The filename derivation of `download_file` (lib.rs:489-493):
`content_disposition.split("filename=").last().unwrap().replace('"', "")`.
A Rust split always yields at least one piece, so the `last().unwrap()` is
the `getLastD`. -/
def filename_from_content_disposition (cd : String) : String :=
  String.mk
    (((splitOnSub 'f' "ilename=".toList cd.toList).getLastD []).filter
      (fun ch => ch != '"'))

theorem find?_filter {α : Type} (q p : α → Bool) (l : List α) :
    (l.filter q).find? p = l.find? (fun a => q a && p a) := by
  induction l with
  | nil => rfl
  | cons a t ih =>
    by_cases hq : q a
    · by_cases hp : p a
      · simp [List.filter_cons, List.find?_cons, hq, hp]
      · simp [List.filter_cons, List.find?_cons, hq, hp, ih]
    · simp [List.filter_cons, List.find?_cons, hq, ih]

/-- C1: for every non-empty file sequence and every preference, the selector
returns `Ok(Some _)` of exactly the spec's three-tier choice: the first
explicit-format file matching format AND type, else the first
explicit-format file matching format OR type, else the first file of the
sequence; and the result is a member of the input sequence. -/
theorem select_three_tiers (pf : ModelFormat) (pt : ResourceType)
    (mv : ModelVersion) (vs : List ResourceFile)
    (h : mv.files = some vs) (hne : vs ≠ []) :
    get_optimal_file_from_preferred_model_format pf pt mv
      = .ok (selectSpec pf pt vs) ∧
    ∃ r, selectSpec pf pt vs = some r ∧ r ∈ vs := by
  unfold get_optimal_file_from_preferred_model_format selectSpec
  rw [h]
  simp only [find?_filter]
  cases hp : vs.find? (fun v => v.format.isSome && primary_pred pf pt v) with
  | some p =>
    exact ⟨rfl, p, rfl, List.mem_of_find?_eq_some hp⟩
  | none =>
    cases ha : vs.find? (fun v => v.format.isSome && alt_pred pf pt v) with
    | some a =>
      exact ⟨rfl, a, rfl, List.mem_of_find?_eq_some ha⟩
    | none =>
      cases vs with
      | nil => exact absurd rfl hne
      | cons f t => exact ⟨rfl, f, rfl, List.mem_cons_self f t⟩

/-- Closed witness for `select_three_tiers`: a concrete two-file version in
which the second file is the Primary match. -/
theorem select_three_tiers_witness :
    (mvTwoFiles.files = some twoFiles ∧ twoFiles ≠ []) ∧
    (get_optimal_file_from_preferred_model_format .SafeTensor .PrunedModel mvTwoFiles
        = .ok (selectSpec .SafeTensor .PrunedModel twoFiles) ∧
      ∃ r, selectSpec .SafeTensor .PrunedModel twoFiles = some r ∧ r ∈ twoFiles) :=
  ⟨⟨rfl, by decide⟩,
    select_three_tiers .SafeTensor .PrunedModel mvTwoFiles twoFiles rfl (by decide)⟩

/-- C2 counterexample: selection on a version with absent `files` panics at
`.expect("yo wtf")`, and on a present-but-empty sequence panics unwrapping
`vs.first()`; neither case returns an error value, refuting "fails with a
NoFilesAvailable error ... never panics". -/
theorem select_empty_never_errors_refuted :
    get_optimal_file_from_preferred_model_format .SafeTensor .PrunedModel mvNoFiles
        = .panik "yo wtf" ∧
    get_optimal_file_from_preferred_model_format .SafeTensor .PrunedModel mvEmptyFiles
        = .panik "called Option.unwrap on a None value" ∧
    ∀ m, get_optimal_file_from_preferred_model_format .SafeTensor .PrunedModel
        mvEmptyFiles ≠ .err m := by
  refine ⟨rfl, rfl, ?_⟩
  intro m h
  rw [show get_optimal_file_from_preferred_model_format .SafeTensor .PrunedModel
        mvEmptyFiles = .panik "called Option.unwrap on a None value" from rfl] at h
  exact Outcome.noConfusion h

/-- C2 (amended): when the file sequence of a version is empty or entirely
absent, selection panics (unwrap on absence) rather than returning a
NoFilesAvailable error. -/
theorem select_empty_or_absent_panics (pf : ModelFormat) (pt : ResourceType)
    (mv : ModelVersion) (h : mv.files = none ∨ mv.files = some []) :
    ∃ msg, get_optimal_file_from_preferred_model_format pf pt mv = .panik msg := by
  unfold get_optimal_file_from_preferred_model_format
  rcases h with h | h <;> rw [h] <;> exact ⟨_, rfl⟩

/-- Closed witness for `select_empty_or_absent_panics` at the concrete
version without files. -/
theorem select_empty_or_absent_panics_witness :
    (mvNoFiles.files = none ∨ mvNoFiles.files = some []) ∧
    ∃ msg, get_optimal_file_from_preferred_model_format .SafeTensor .PrunedModel
        mvNoFiles = .panik msg :=
  ⟨Or.inl rfl,
    select_empty_or_absent_panics .SafeTensor .PrunedModel mvNoFiles (Or.inl rfl)⟩

/-- C3 counterexample: a fetched version whose model summary carries the
unrecognized category text "SomethingElse" makes path resolution panic on
the unwrapped `from_str` error; it does not resolve to Unknown and yields
no path at all, refuting "maps to Unknown rather than failing, so path
resolution succeeds and yields base/downloads". -/
theorem unknown_category_resolution_refuted :
    get_download_folder_from_model_version ["base"]
        (.ok (mkVersionWithModelType "SomethingElse"))
        = .panik "called Result.unwrap on an Err value" ∧
    ∀ p, get_download_folder_from_model_version ["base"]
        (.ok (mkVersionWithModelType "SomethingElse")) ≠ .ok p := by
  refine ⟨rfl, ?_⟩
  intro p h
  rw [show get_download_folder_from_model_version ["base"]
        (.ok (mkVersionWithModelType "SomethingElse"))
        = .panik "called Result.unwrap on an Err value" from rfl] at h
  exact Outcome.noConfusion h

/-- C3 (amended): for every fetched version whose model summary carries a
category string that `ModelType::from_str` rejects, category resolution
panics (the logged error is unwrapped); it never maps unrecognized text to
Unknown. -/
theorem unknown_category_panics (path : List String) (v : ModelVersion)
    (m : ModelSummary) (hm : v.model = some m)
    (hty : ModelType.from_str m.type_field = none) :
    get_download_folder_from_model_version path (.ok v)
        = .panik "called Result.unwrap on an Err value" := by
  simp only [get_download_folder_from_model_version, hm, hty]

/-- Closed witness for `unknown_category_panics` at a concrete unrecognized
category string. -/
theorem unknown_category_panics_witness :
    ((mkVersionWithModelType "Garbage").model
        = some { name := "m", type_field := "Garbage", nsfw := none, poi := none } ∧
      ModelType.from_str "Garbage" = none) ∧
    get_download_folder_from_model_version ["base"]
        (.ok (mkVersionWithModelType "Garbage"))
        = .panik "called Result.unwrap on an Err value" :=
  ⟨⟨rfl, rfl⟩,
    unknown_category_panics ["base"] (mkVersionWithModelType "Garbage")
      { name := "m", type_field := "Garbage", nsfw := none, poi := none } rfl rfl⟩

/-- C4: path resolution is a total function over the closed category
enumeration (hence deterministic: identical inputs give identical outputs),
and for every base path its output is the base joined with exactly the leaf
of the spec's section 4.2 table, normalized. -/
theorem resolve_total_table (base : List String) (cat : ModelType) :
    get_download_folder_from_model_type base cat
      = normalizePath (joinPath base (specLeafTable cat)) := by
  cases cat <;> rfl

/-- C5: when a file exists at the final path and its size in KB (bytes
divided by 1024) equals the selected file's `sizeKb`, the transfer is
reported "already exists" and the filesystem is untouched (no creation, no
write); when the sizes differ, the gate proceeds and overwrites the final
path with the streamed body. -/
theorem existence_check_skip_or_overwrite (fs : FS) (final_path : List String)
    (target : ResourceFile) (body len : Nat) (S : ℚ)
    (hfs : fs final_path = some len) (hsz : target.size_kb = some S) :
    (S = (len : ℚ) / 1024 →
      download_file_existence_gate fs final_path target body
        = (.err "already exists! Not downloading...", fs)) ∧
    (S ≠ (len : ℚ) / 1024 →
      (download_file_existence_gate fs final_path target body).1 = .ok () ∧
      (download_file_existence_gate fs final_path target body).2 final_path
        = some body) := by
  constructor
  · intro hEq
    simp only [download_file_existence_gate,
      check_if_file_exists_and_matches_hash, hfs, hsz, decide_eq_true hEq]
  · intro hNe
    simp only [download_file_existence_gate,
      check_if_file_exists_and_matches_hash, hfs, hsz, decide_eq_false hNe]
    simp

/-- Closed witness for `existence_check_skip_or_overwrite`: a 2048-byte
existing file is skipped for an expected size of 2 KB and overwritten for
an expected size of 3 KB. -/
theorem existence_check_skip_or_overwrite_witness :
    (fsSample ["models", "x.safetensors"] = some 2048 ∧
      fileWithSize.size_kb = some 2 ∧ fileWithOtherSize.size_kb = some 3 ∧
      (2 : ℚ) = (2048 : ℚ) / 1024 ∧ (3 : ℚ) ≠ (2048 : ℚ) / 1024) ∧
    download_file_existence_gate fsSample ["models", "x.safetensors"] fileWithSize 9
      = (.err "already exists! Not downloading...", fsSample) ∧
    (download_file_existence_gate fsSample ["models", "x.safetensors"]
        fileWithOtherSize 9).1 = .ok () ∧
    (download_file_existence_gate fsSample ["models", "x.safetensors"]
        fileWithOtherSize 9).2 ["models", "x.safetensors"] = some 9 :=
  ⟨⟨by decide, rfl, rfl, by norm_num, by norm_num⟩,
    (existence_check_skip_or_overwrite fsSample ["models", "x.safetensors"]
        fileWithSize 9 2048 2 (by decide) rfl).1 (by norm_num),
    ((existence_check_skip_or_overwrite fsSample ["models", "x.safetensors"]
        fileWithOtherSize 9 2048 3 (by decide) rfl).2 (by norm_num)).1,
    ((existence_check_skip_or_overwrite fsSample ["models", "x.safetensors"]
        fileWithOtherSize 9 2048 3 (by decide) rfl).2 (by norm_num)).2⟩

/-- C6 counterexample: with a file present at the final path and the
expected `sizeKb` absent, the existence check panics on
`file.size_kb.unwrap()` — the transfer does not proceed to overwrite —
refuting "the existence check is skipped and the transfer proceeds ...
without erroring or panicking". -/
theorem missing_size_overwrite_refuted :
    check_if_file_exists_and_matches_hash fsSample ["models", "x.safetensors"]
        fileNoSize = .panik "called Option.unwrap on a None value" ∧
    (download_file_existence_gate fsSample ["models", "x.safetensors"]
        fileNoSize 9).1 ≠ .ok () := by
  decide

/-- C6 (amended): whenever a file exists at the final path and the selected
file's expected `sizeKb` is absent from the wire data, the existence check
panics unwrapping it, and the gate propagates the panic instead of
proceeding; the check is only skipped when no file exists at the path. -/
theorem existing_file_missing_size_panics (fs : FS) (path : List String)
    (target : ResourceFile) (len body : Nat)
    (hfs : fs path = some len) (hsz : target.size_kb = none) :
    check_if_file_exists_and_matches_hash fs path target
        = .panik "called Option.unwrap on a None value" ∧
    (download_file_existence_gate fs path target body).1
        = .panik "called Option.unwrap on a None value" := by
  unfold download_file_existence_gate check_if_file_exists_and_matches_hash
  rw [hfs, hsz]
  exact ⟨rfl, rfl⟩

/-- Closed witness for `existing_file_missing_size_panics` at the concrete
2048-byte file and a size-less wire record. -/
theorem existing_file_missing_size_panics_witness :
    (fsSample ["models", "x.safetensors"] = some 2048 ∧
      fileNoSize.size_kb = none) ∧
    check_if_file_exists_and_matches_hash fsSample ["models", "x.safetensors"]
        fileNoSize = .panik "called Option.unwrap on a None value" ∧
    (download_file_existence_gate fsSample ["models", "x.safetensors"]
        fileNoSize 9).1 = .panik "called Option.unwrap on a None value" :=
  ⟨⟨by decide, rfl⟩,
    existing_file_missing_size_panics fsSample ["models", "x.safetensors"]
      fileNoSize 2048 9 (by decide) rfl⟩

/-- C7: override mode locates the version by linear search comparing each
version's stringified id with the override id. When no version matches, the
result is the VersionNotFound-style error — no version is handed to the
transfer (a transfer list exists only in the `ok` case) and `main`'s
`.unwrap()` makes it fatal for the whole run. When the search succeeds,
exactly one transfer is performed, for the first matching version. -/
theorem override_version_search (model : Model) (oid : String) :
    ((∀ v ∈ model.model_versions, toString v.id ≠ oid) →
      ∃ msg, download_specific_resource_for_model model oid = .error msg ∧
        overrideRun model oid = .panik msg) ∧
    (∀ t, model.model_versions.find? (fun v => toString v.id == oid) = some t →
      download_specific_resource_for_model model oid = .ok [t] ∧
      t ∈ model.model_versions ∧ toString t.id = oid ∧
      overrideRun model oid = .ok [t]) := by
  constructor
  · intro hall
    have hf : model.model_versions.find? (fun v => toString v.id == oid) = none := by
      rw [List.find?_eq_none]
      intro v hv
      simp [hall v hv]
    refine ⟨"Failed to find model version " ++ oid ++ " for model "
        ++ toString model.id, ?_, ?_⟩
    · simp [download_specific_resource_for_model, hf]
    · simp [overrideRun, download_specific_resource_for_model, hf]
  · intro t ht
    have hmem := List.mem_of_find?_eq_some ht
    have heq := List.find?_some ht
    exact ⟨by simp [download_specific_resource_for_model, ht], hmem,
      by simpa using heq,
      by simp [overrideRun, download_specific_resource_for_model, ht]⟩

/-- Closed witness for `override_version_search`: a model with versions 3
and 5; override id "9" fails the run, override id "5" transfers exactly
version 5. -/
theorem override_version_search_witness :
    ((∀ v ∈ modelTwoVersions.model_versions, toString v.id ≠ "9") ∧
      modelTwoVersions.model_versions.find? (fun v => toString v.id == "5")
        = some vFive) ∧
    (∃ msg, download_specific_resource_for_model modelTwoVersions "9"
        = .error msg ∧
      overrideRun modelTwoVersions "9" = .panik msg) ∧
    (download_specific_resource_for_model modelTwoVersions "5" = .ok [vFive] ∧
      vFive ∈ modelTwoVersions.model_versions ∧ toString vFive.id = "5" ∧
      overrideRun modelTwoVersions "5" = .ok [vFive]) :=
  ⟨⟨by decide, by decide⟩,
    (override_version_search modelTwoVersions "9").1 (by decide),
    (override_version_search modelTwoVersions "5").2 vFive (by decide)⟩

/-- C8 counterexample: with the wrapping `u64` addition of the source, the
claim does not hold for *every* chunk sequence and total: at
`total = 2^64 - 1`, a first chunk of `2^64 - 1` bytes followed by a chunk
of 2 bytes overflows `downloaded + chunk.len()`, wraps to 1, and the
reported position drops from `2^64 - 1` to 1 — the counter is not
monotonically non-decreasing. -/
theorem progress_wrap_refuted :
    progress_positions (U64_MOD - 1) 0 [U64_MOD - 1, 2]
      = [U64_MOD - 1, 1] ∧
    ¬ List.Chain' (· ≤ ·)
      (0 :: progress_positions (U64_MOD - 1) 0 [U64_MOD - 1, 2]) := by
  have h1 : progress_positions (U64_MOD - 1) 0 [U64_MOD - 1, 2]
      = [U64_MOD - 1, 1] := by decide
  refine ⟨h1, ?_⟩
  intro hch
  rw [h1] at hch
  have hle : U64_MOD - 1 ≤ 1 := (List.chain'_cons.mp (List.chain'_cons.mp hch).2).1
  exact absurd hle (by decide)

theorem progress_positions_aux (total : Nat) (chunks : List Nat) :
    ∀ d, d ≤ total → (∀ c ∈ chunks, total + c < U64_MOD) →
      List.Chain' (· ≤ ·) (d :: progress_positions total d chunks) ∧
      ∀ x ∈ progress_positions total d chunks, x ≤ total := by
  induction chunks with
  | nil =>
    intro d _ _
    exact ⟨List.chain'_singleton d, by simp [progress_positions]⟩
  | cons c cs ih =>
    intro d hd h
    have hlt : d + c < U64_MOD :=
      lt_of_le_of_lt (Nat.add_le_add_right hd c) (h c (List.mem_cons_self c cs))
    have hmod : (d + c) % U64_MOD = d + c := Nat.mod_eq_of_lt hlt
    have hnew : min ((d + c) % U64_MOD) total ≤ total := min_le_right _ _
    have hdle : d ≤ min ((d + c) % U64_MOD) total := by
      rw [hmod]
      exact le_min (Nat.le_add_right d c) hd
    obtain ⟨hchain, hbound⟩ :=
      ih (min ((d + c) % U64_MOD) total) hnew
        (fun x hx => h x (List.mem_cons_of_mem c hx))
    refine ⟨?_, ?_⟩
    · simp only [progress_positions]
      exact List.chain'_cons.mpr ⟨hdle, hchain⟩
    · intro x hx
      simp only [progress_positions, List.mem_cons] at hx
      rcases hx with rfl | hx
      · exact hnew
      · exact hbound x hx

/-- C8 (amended): over every sequence of received chunk lengths and every
total size such that no update overflows the `u64` counter
(`total + chunkLen < 2^64` for each received chunk — always the case for
realistic transfers, since `downloaded` never exceeds `total`), the
bytes-downloaded counter — starting at 0 and advanced to
`min((downloaded + chunkLen) mod 2^64, total)` per chunk — is monotonically
non-decreasing across the reported positions and never exceeds the total.
An overflowing update wraps and can decrease the counter. -/
theorem progress_monotone_bounded_u64 (total : Nat) (chunks : List Nat)
    (h : ∀ c ∈ chunks, total + c < U64_MOD) :
    List.Chain' (· ≤ ·) (0 :: progress_positions total 0 chunks) ∧
    ∀ x ∈ progress_positions total 0 chunks, x ≤ total :=
  progress_positions_aux total chunks 0 (Nat.zero_le total) h

/-- Closed witness for `progress_monotone_bounded_u64`: a 100-byte transfer
received as a 60-byte and then a 70-byte chunk (the second clamped). -/
theorem progress_monotone_bounded_u64_witness :
    (∀ c ∈ [60, 70], 100 + c < U64_MOD) ∧
    (List.Chain' (· ≤ ·) (0 :: progress_positions 100 0 [60, 70]) ∧
      ∀ x ∈ progress_positions 100 0 [60, 70], x ≤ 100) :=
  ⟨by decide, progress_monotone_bounded_u64 100 [60, 70] (by decide)⟩

/-- C9: `download_file` unconditionally unwraps `files` and its first
element before invoking the selector, so a version whose `files` is absent
or empty panics inside `download_file` — it never reaches an `ok` or `err`
outcome. -/
theorem download_file_requires_files (pf : ModelFormat) (pt : ResourceType)
    (mv : ModelVersion) (h : mv.files = none ∨ mv.files = some []) :
    download_file_select pf pt mv
      = .panik "called Option.unwrap on a None value" := by
  rcases h with h | h <;> simp only [download_file_select, h]

/-- Closed witness for `download_file_requires_files` at the concrete
version with a present-but-empty file sequence. -/
theorem download_file_requires_files_witness :
    (mvEmptyFiles.files = none ∨ mvEmptyFiles.files = some []) ∧
    download_file_select .SafeTensor .PrunedModel mvEmptyFiles
      = .panik "called Option.unwrap on a None value" :=
  ⟨Or.inr rfl,
    download_file_requires_files .SafeTensor .PrunedModel mvEmptyFiles
      (Or.inr rfl)⟩

theorem splitOnSub_of_not_contains (p : Char) (ps : List Char)
    (s : List Char) (h : containsSub p ps s = false) :
    splitOnSub p ps s = [s] := by
  induction s with
  | nil => simp [splitOnSub]
  | cons c rest ih =>
    simp only [containsSub, Bool.or_eq_false_iff] at h
    obtain ⟨h1, h2⟩ := h
    rw [splitOnSub]
    simp only [h1, Bool.false_eq_true, if_false, ih h2]

/-- C10: when the content-disposition header value does not contain the
substring "filename=", the derivation does not fail: the split returns the
entire header value as its only (hence last) piece, and the on-disk
filename is that value with all double-quote characters removed. -/
theorem filename_without_marker (cd : String)
    (h : containsSub 'f' "ilename=".toList cd.toList = false) :
    filename_from_content_disposition cd
      = String.mk (cd.toList.filter (fun ch => ch != '"')) := by
  unfold filename_from_content_disposition
  rw [splitOnSub_of_not_contains _ _ _ h]
  simp [List.getLastD]

/-- Closed witness for `filename_without_marker` at the header value
"attachment". -/
theorem filename_without_marker_witness :
    containsSub 'f' "ilename=".toList "attachment".toList = false ∧
    filename_from_content_disposition "attachment"
      = String.mk ("attachment".toList.filter (fun ch => ch != '"')) :=
  ⟨by decide, filename_without_marker "attachment" (by decide)⟩
